import Mathlib

/-!
# Expense tracker front end (`frontend/src/App.js`)

A shallow embedding of the `App` component: its state hooks, the asynchronous
handlers (`fetchCategories`, `fetchExpenses`, `handleAddExpense`,
`handleUpdateExpense`, `handleDeleteExpense`), the filter form, the colour lookup
and the header totals, followed by the properties established about them.

Every asynchronous handler is split at its single suspension point (the awaited
`fetch` / `response.json()` pair) into a `...Start` part, which runs up to the
request being issued, and a `...Resume` part, which runs when the answer arrives.

User gestures are offered by the rendered page only: the step relation carries the
conditions under which the JSX renders without throwing, the `disabled` attributes of
the buttons and the constraint validation the browser runs on a form before `onSubmit`.
Numbers are IEEE-754 doubles, with addition rounding to the nearest double, computed in
integer arithmetic.
-/

namespace ExpenseTracker

/-! ## JavaScript values -/

/-- A JavaScript value as the handlers can observe it: the parsed body of a JSON
response, or a value held in a state hook.  A number is carried as its canonical
decimal rendering (what `Number.prototype.toString` returns); the handlers observe a
number only through its truthiness and through string conversion. -/
inductive JSValue where
  | undefined : JSValue
  | null : JSValue
  | bool (b : Bool) : JSValue
  | num (repr : String) : JSValue
  | str (s : String) : JSValue
  | arr (items : List JSValue) : JSValue
  | obj (fields : List (String × JSValue)) : JSValue

namespace JSValue

/-- ToBoolean: `undefined`, `null`, `false`, `0`, `NaN` and `''` are falsy. -/
def truthy : JSValue → Bool
  | undefined => false
  | null => false
  | bool b => b
  | num repr => repr != "0" && repr != "NaN"
  | str s => s != ""
  | arr _ => true
  | obj _ => true

/-- The expression `a || b`. -/
def or (a b : JSValue) : JSValue :=
  if a.truthy then a else b

/-- Property read `v.name` for a data property name (`success`, `data`, `error`,
`errors`, `id`): reading from `null` or `undefined` throws a TypeError, an object
yields its own field or `undefined`, every other value yields `undefined`. -/
def getProp (v : JSValue) (name : String) : Except String JSValue :=
  match v with
  | undefined => .error ("Cannot read properties of undefined (reading '" ++ name ++ "')")
  | null => .error ("Cannot read properties of null (reading '" ++ name ++ "')")
  | obj fields => .ok ((fields.lookup name).getD undefined)
  | _ => .ok undefined

/-- The value of `data.name` where the read does not throw, and `undefined` elsewhere. -/
def field (data : JSValue) (name : String) : JSValue :=
  match data.getProp name with
  | .ok v => v
  | .error _ => undefined

mutual
/-- ToString on a value. -/
def toStr : JSValue → String
  | undefined => "undefined"
  | null => "null"
  | bool b => if b then "true" else "false"
  | num repr => repr
  | str s => s
  | arr items => joinItems "," items
  | obj _ => "[object Object]"
/-- The body of `Array.prototype.join`: `null` and `undefined` items render as the
empty string, the others through ToString. -/
def joinItems (sep : String) : List JSValue → String
  | [] => ""
  | [x] => itemStr x
  | x :: y :: rest => itemStr x ++ sep ++ joinItems sep (y :: rest)
/-- One item of a joined array. -/
def itemStr : JSValue → String
  | undefined => ""
  | null => ""
  | bool b => if b then "true" else "false"
  | num repr => repr
  | str s => s
  | arr items => joinItems "," items
  | obj _ => "[object Object]"
end

/-- The expression `v?.join(', ')`: `undefined` when `v` is nullish, the joined string
when `v` is an array, and a TypeError otherwise (no other JSON value has a callable
`join`). -/
def optJoin (v : JSValue) : Except String JSValue :=
  match v with
  | undefined => .ok undefined
  | null => .ok undefined
  | arr items => .ok (str (joinItems ", " items))
  | _ => .error "data.errors?.join is not a function"

end JSValue

/-! ## Filters and the query built from them -/

/-- The `filters` object: its own keys in insertion order.  The filter form stores
under each key either a non-empty string or `undefined` (here `none`). -/
abbrev Filter := List (String × Option String)

/-- The object literal `{ ...filters, [key]: value }`: an existing key keeps its place
and takes the new value, a new key is added last. -/
def Filter.set : Filter → String → Option String → Filter
  | [], key, value => [(key, value)]
  | (k, v) :: rest, key, value =>
    if k = key then (k, value) :: rest else (k, v) :: Filter.set rest key value

/-- The expression `e.target.value || undefined` of the three filter inputs. -/
def orUndefined (value : String) : Option String :=
  if value != "" then some value else none

/-- The onChange handlers of the filter modal:
`setFilters({ ...filters, [key]: e.target.value || undefined })`. -/
def onFilterChange (filters : Filter) (key value : String) : Filter :=
  Filter.set filters key (orUndefined value)

/-- The constructor `new URLSearchParams(record)`: one name-value pair per own key of the
record, in key order, each value converted to a string (`undefined` becomes the
string `undefined`). -/
def URLSearchParams (filterParams : Filter) : List (String × String) :=
  filterParams.map (fun kv => (kv.1, (kv.2).getD "undefined"))

/-! ## Application state -/

/-- The `formData` object of the add and edit forms. -/
structure FormData where
  amount : JSValue
  date : JSValue
  note : JSValue
  category : JSValue

/-- The state hooks of `App`, in declaration order. -/
structure AppState where
  expenses : JSValue
  categories : JSValue
  showAddModal : Bool
  showEditModal : Bool
  showFilterModal : Bool
  showReportModal : Bool
  currentExpense : JSValue
  filters : Filter
  summary : JSValue
  loading : Bool
  error : JSValue
  formData : FormData

/-- A request to the store; a query string is kept as the name-value list of its
`URLSearchParams`, a JSON body as the object that is serialised, and the id spliced into
a path as the value it is read from. -/
inductive Request where
  | getCategories : Request
  | getExpenses (params : List (String × String)) : Request
  | getSummary (params : List (String × String)) : Request
  | postExpense (body : FormData) : Request
  | putExpense (id : JSValue) (body : FormData) : Request
  | deleteExpense (id : JSValue) : Request

/-- Whether a request is a create, update or delete. -/
def Request.isMutation : Request → Bool
  | .postExpense _ => true
  | .putExpense _ _ => true
  | .deleteExpense _ => true
  | _ => false

/-- A suspended handler: the request it awaits, and the `filters` value captured by the
closure that issued it (the value its continuation passes to `fetchExpenses`). -/
structure Pending where
  req : Request
  filters : Filter

/-- The component together with the network: the requests awaiting an answer, oldest
first, and the log of every request issued so far. -/
structure World where
  app : AppState
  inflight : List Pending
  sent : List Request

/-- The answer to a request: the parsed JSON body, or the message of the error thrown by
`fetch` or by `response.json()`. -/
abbrev Response := Except String JSValue

/-- The call `fetch(...)`: the request is logged and the caller is suspended on it. -/
def World.issue (w : World) (req : Request) : World :=
  { w with inflight := w.inflight ++ [⟨req, w.app.filters⟩], sent := w.sent ++ [req] }

/-- The state hooks at the first render; `today` is `format(new Date(), 'yyyy-MM-dd')`. -/
def AppState.initial (today : String) : AppState where
  expenses := .arr []
  categories := .arr []
  showAddModal := false
  showEditModal := false
  showFilterModal := false
  showReportModal := false
  currentExpense := .null
  filters := []
  summary := .null
  loading := false
  error := .null
  formData := ⟨.str "", .str today, .str "", .str "other"⟩

/-! ## Categories -/

/-- An entry of the category registry. -/
structure Category where
  id : Nat
  name : String
  color : String
  deriving DecidableEq

/-- The object literal `{ id, name, color }`. -/
def Category.toJS (c : Category) : JSValue :=
  .obj [("id", .num (Nat.repr c.id)), ("name", .str c.name), ("color", .str c.color)]

/-- The table passed to `setCategories` in the `else` branch of `fetchCategories`. -/
def fallbackCategoriesElse : List Category :=
  [ ⟨1, "food", "#ef4444"⟩,
    ⟨2, "travel", "#3b82f6"⟩,
    ⟨3, "bills", "#f59e0b"⟩,
    ⟨4, "entertainment", "#8b5cf6"⟩,
    ⟨5, "shopping", "#ec4899"⟩,
    ⟨6, "health", "#10b981"⟩,
    ⟨7, "other", "#6b7280"⟩ ]

/-- The table passed to `setCategories` in the `catch` block of `fetchCategories`. -/
def fallbackCategoriesCatch : List Category :=
  [ ⟨1, "food", "#ef4444"⟩,
    ⟨2, "travel", "#3b82f6"⟩,
    ⟨3, "bills", "#f59e0b"⟩,
    ⟨4, "entertainment", "#8b5cf6"⟩,
    ⟨5, "shopping", "#ec4899"⟩,
    ⟨6, "health", "#10b981"⟩,
    ⟨7, "other", "#6b7280"⟩ ]

/-- The first half of `fetchCategories`: the GET of `/categories` is issued. -/
def fetchCategoriesStart (w : World) : World :=
  w.issue .getCategories

/-- The second half of `fetchCategories`, run when the answer arrives. -/
def fetchCategoriesResume (resp : Response) (s : AppState) : AppState :=
  match resp with
  | .error _ => { s with categories := .arr (fallbackCategoriesCatch.map Category.toJS) }
  | .ok data =>
    match data.getProp "success" with
    | .error _ => { s with categories := .arr (fallbackCategoriesCatch.map Category.toJS) }
    | .ok success =>
      if success.truthy then
        match data.getProp "data" with
        | .error _ => { s with categories := .arr (fallbackCategoriesCatch.map Category.toJS) }
        | .ok d => { s with categories := d }
      else
        { s with categories := .arr (fallbackCategoriesElse.map Category.toJS) }

/-- The lookup `getCategoryColor` over a registry holding a list of categories:
`categories.find(c => c.name === categoryName)` followed by
`category?.color || '#6b7280'`. -/
def getCategoryColor (categories : List Category) (categoryName : String) : String :=
  match categories.find? (fun c => c.name == categoryName) with
  | some category => if category.color != "" then category.color else "#6b7280"
  | none => "#6b7280"

/-! ## Refreshing the cache -/

/-- The first half of `fetchExpenses(filterParams)`: `setLoading(true)`, `setError(null)`,
then the GET of `/expenses` with the query built from `filterParams`. -/
def fetchExpensesStart (filterParams : Filter) (w : World) : World :=
  World.issue { w with app := { w.app with loading := true, error := .null } }
    (.getExpenses (URLSearchParams filterParams))

/-- The `try` and `catch` blocks of the second half of `fetchExpenses`. -/
def fetchExpensesSettle (resp : Response) (s : AppState) : AppState :=
  match resp with
  | .error _ => { s with error := .str "Failed to fetch expenses" }
  | .ok data =>
    match data.getProp "success" with
    | .error _ => { s with error := .str "Failed to fetch expenses" }
    | .ok success =>
      if success.truthy then
        match data.getProp "data" with
        | .error _ => { s with error := .str "Failed to fetch expenses" }
        | .ok d => { s with expenses := d }
      else
        match data.getProp "error" with
        | .error _ => { s with error := .str "Failed to fetch expenses" }
        | .ok e => { s with error := e }

/-- The second half of `fetchExpenses`, run when the answer arrives; the `finally` block
clears `loading`. -/
def fetchExpensesResume (resp : Response) (s : AppState) : AppState :=
  { fetchExpensesSettle resp s with loading := false }

/-- The handler `applyFilters`. -/
def applyFilters (w : World) : World :=
  let w1 := fetchExpensesStart w.app.filters w
  { w1 with app := { w1.app with showFilterModal := false } }

/-- The handler `clearFilters`; `fetchExpenses()` runs with its default argument `{}`. -/
def clearFilters (w : World) : World :=
  let w1 := fetchExpensesStart [] { w with app := { w.app with filters := [] } }
  { w1 with app := { w1.app with showFilterModal := false } }

/-! ## Mutations -/

/-- The function `resetForm`. -/
def resetForm (today : String) (s : AppState) : AppState :=
  { s with formData := ⟨.str "", .str today, .str "", .str "other"⟩ }

/-- The expression `data.errors?.join(', ') || data.error`. -/
def reportedErrors (data : JSValue) : Except String JSValue :=
  match data.getProp "errors" with
  | .error message => .error message
  | .ok errors =>
    match errors.optJoin with
    | .error message => .error message
    | .ok joined =>
      match data.getProp "error" with
      | .error message => .error message
      | .ok error => .ok (joined.or error)

/-- The first half of `handleAddExpense`: `setLoading(true)`, `setError(null)`, then the POST
of `formData` to `/expenses`.  Nothing is inspected before the request is issued. -/
def handleAddExpenseStart (w : World) : World :=
  World.issue { w with app := { w.app with loading := true, error := .null } }
    (.postExpense w.app.formData)

/-- The `try` and `catch` blocks of the second half of `handleAddExpense`; `filters` is the
value captured when the form was submitted. -/
def handleAddExpenseSettle (today : String) (filters : Filter) (resp : Response)
    (w : World) : World :=
  match resp with
  | .error message =>
    { w with app := { w.app with error := .str ("Failed to add expense: " ++ message) } }
  | .ok data =>
    match data.getProp "success" with
    | .error message =>
      { w with app := { w.app with error := .str ("Failed to add expense: " ++ message) } }
    | .ok success =>
      if success.truthy then
        fetchExpensesStart filters
          { w with app := resetForm today { w.app with showAddModal := false } }
      else
        match reportedErrors data with
        | .error message =>
          { w with app := { w.app with error := .str ("Failed to add expense: " ++ message) } }
        | .ok errorMsg => { w with app := { w.app with error := errorMsg } }

/-- The second half of `handleAddExpense`; the `finally` block clears `loading`. -/
def handleAddExpenseResume (today : String) (filters : Filter) (resp : Response)
    (w : World) : World :=
  let w1 := handleAddExpenseSettle today filters resp w
  { w1 with app := { w1.app with loading := false } }

/-- The first half of `handleUpdateExpense`: `setLoading(true)`, then the PUT of `formData`
to `/expenses/${currentExpense.id}`; reading the id of a `null` current expense throws
inside the `try` block, before any request. -/
def handleUpdateExpenseStart (w : World) : World :=
  match w.app.currentExpense.getProp "id" with
  | .error _ =>
    { w with app := { w.app with error := .str "Failed to update expense", loading := false } }
  | .ok id =>
    World.issue { w with app := { w.app with loading := true } }
      (.putExpense id w.app.formData)

/-- The `try` and `catch` blocks of the second half of `handleUpdateExpense`. -/
def handleUpdateExpenseSettle (today : String) (filters : Filter) (resp : Response)
    (w : World) : World :=
  match resp with
  | .error _ => { w with app := { w.app with error := .str "Failed to update expense" } }
  | .ok data =>
    match data.getProp "success" with
    | .error _ => { w with app := { w.app with error := .str "Failed to update expense" } }
    | .ok success =>
      if success.truthy then
        fetchExpensesStart filters
          { w with app :=
              resetForm today { w.app with showEditModal := false, currentExpense := .null } }
      else
        match reportedErrors data with
        | .error _ => { w with app := { w.app with error := .str "Failed to update expense" } }
        | .ok errorMsg => { w with app := { w.app with error := errorMsg } }

/-- The second half of `handleUpdateExpense`; the `finally` block clears `loading`. -/
def handleUpdateExpenseResume (today : String) (filters : Filter) (resp : Response)
    (w : World) : World :=
  let w1 := handleUpdateExpenseSettle today filters resp w
  { w1 with app := { w1.app with loading := false } }

/-- The first half of `handleDeleteExpense(id)`; `confirmed` is the answer of
`window.confirm`.  Nothing else is consulted before the DELETE is issued. -/
def handleDeleteExpenseStart (id : JSValue) (confirmed : Bool) (w : World) : World :=
  if !confirmed then w
  else
    World.issue { w with app := { w.app with loading := true } } (.deleteExpense id)

/-- The `try` and `catch` blocks of the second half of `handleDeleteExpense`. -/
def handleDeleteExpenseSettle (filters : Filter) (resp : Response) (w : World) : World :=
  match resp with
  | .error _ => { w with app := { w.app with error := .str "Failed to delete expense" } }
  | .ok data =>
    match data.getProp "success" with
    | .error _ => { w with app := { w.app with error := .str "Failed to delete expense" } }
    | .ok success =>
      if success.truthy then fetchExpensesStart filters w
      else
        match data.getProp "error" with
        | .error _ => { w with app := { w.app with error := .str "Failed to delete expense" } }
        | .ok e => { w with app := { w.app with error := e } }

/-- The second half of `handleDeleteExpense`; the `finally` block clears `loading`. -/
def handleDeleteExpenseResume (filters : Filter) (resp : Response) (w : World) : World :=
  let w1 := handleDeleteExpenseSettle filters resp w
  { w1 with app := { w1.app with loading := false } }

/-- The function `openEditModal(expense)`; reading a field of a `null` or `undefined`
record throws before any state is set. -/
def openEditModal (expense : JSValue) (s : AppState) : Option AppState :=
  match expense.getProp "amount", expense.getProp "date", expense.getProp "note",
      expense.getProp "category" with
  | .ok amount, .ok date, .ok note, .ok category =>
    some { s with
      currentExpense := expense
      formData := ⟨amount, date, note.or (.str ""), category⟩
      showEditModal := true }
  | _, _, _, _ => none

/-! ## Report summary -/

/-- The object literal `{ group_by: groupBy, ...filters }`. -/
def summaryParams (groupBy : String) (filters : Filter) : Filter :=
  filters.foldl (fun acc kv => Filter.set acc kv.1 kv.2) [("group_by", some groupBy)]

/-- The first half of `fetchSummary(groupBy)`. -/
def fetchSummaryStart (groupBy : String) (w : World) : World :=
  w.issue (.getSummary (URLSearchParams (summaryParams groupBy w.app.filters)))

/-- The second half of `fetchSummary`: the summary is stored on success, and every failure
is only logged. -/
def fetchSummaryResume (resp : Response) (s : AppState) : AppState :=
  match resp with
  | .error _ => s
  | .ok data =>
    match data.getProp "success" with
    | .error _ => s
    | .ok success =>
      if success.truthy then
        match data.getProp "data" with
        | .error _ => s
        | .ok d => { s with summary := d }
      else s

/-- The function `openReportModal`. -/
def openReportModal (w : World) : World :=
  let w1 := fetchSummaryStart "category" w
  { w1 with app := { w1.app with showReportModal := true } }

/-! ## Numbers -/

/-- A decimal numeral: the number `mantissa × 10 ^ exponent`. -/
structure Decimal where
  mantissa : Int
  exponent : Int
  deriving DecidableEq

/-- The value of a non-empty run of ASCII digits. -/
def digitsValue (cs : List Char) : Option Nat :=
  if cs.isEmpty || !cs.all Char.isDigit then none
  else some (cs.foldl (fun n c => 10 * n + (c.toNat - 48)) 0)

/-- The exponent part of a numeral: empty, or `e` or `E`, an optional sign and digits. -/
def parseExponent : List Char → Option Int
  | [] => some 0
  | _ :: '-' :: ds => (digitsValue ds).map (fun n => -(n : Int))
  | _ :: '+' :: ds => (digitsValue ds).map (fun n => (n : Int))
  | _ :: ds => (digitsValue ds).map (fun n => (n : Int))

/-- The unsigned part of a numeral before the exponent: digits, optionally followed by a
point and digits, or a point and digits. -/
def parseMantissa (cs : List Char) : Option (Nat × Nat) :=
  let whole := cs.takeWhile (fun c => c != '.')
  match cs.dropWhile (fun c => c != '.') with
  | [] => (digitsValue whole).map (fun n => (n, 0))
  | _ :: fraction =>
    match digitsValue fraction with
    | none => none
    | some f =>
      match (if whole.isEmpty then some 0 else digitsValue whole) with
      | none => none
      | some n => some (n * 10 ^ fraction.length + f, fraction.length)

/-- A valid floating-point number read as a decimal: an optional `-`, the mantissa and
an optional exponent; `none` for any other string. -/
def parseDecimal (s : String) : Option Decimal :=
  let cs := s.toList
  let negative := cs.head? == some '-'
  let body := if negative then cs.drop 1 else cs
  let isE := fun (c : Char) => c == 'e' || c == 'E'
  match parseMantissa (body.takeWhile (fun c => !isE c)),
      parseExponent (body.dropWhile (fun c => !isE c)) with
  | some (m, digits), some e =>
    some ⟨if negative then -(m : Int) else (m : Int), e - (digits : Int)⟩
  | _, _ => none

/-- The integer `d × 10 ^ (-e)` for a decimal `d` and an exponent `e` not above its own. -/
def Decimal.scaled (d : Decimal) (e : Int) : Int :=
  d.mantissa * ((10 ^ (d.exponent - e).toNat : Nat) : Int)

/-- Comparison of decimals. -/
def Decimal.le (a b : Decimal) : Bool :=
  decide (a.scaled (min a.exponent b.exponent) ≤ b.scaled (min a.exponent b.exponent))

/-- Whether `v` lies a whole number of steps away from `base`. -/
def Decimal.stepMatches (v base step : Decimal) : Bool :=
  let e := min v.exponent (min base.exponent step.exponent)
  decide ((v.scaled e - base.scaled e) % step.scaled e = 0)

/-- A JavaScript number: `NaN`, an infinity, or a finite double given by the fraction
`num / den` in lowest terms (the two zeros are not told apart). -/
inductive JSNumber where
  | nan : JSNumber
  | inf (negative : Bool) : JSNumber
  | fin (num : Int) (den : Nat) : JSNumber
  deriving DecidableEq

/-- The position of the highest set bit, by halving at most `fuel` times. -/
def log2Fuel : Nat → Nat → Nat
  | 0, _ => 0
  | fuel + 1, n => if n < 2 then 0 else log2Fuel fuel (n / 2) + 1

/-- The integer part of the binary logarithm of `p / r`, for positive `p` and `r`. -/
def floorLog2 (p r : Nat) : Int :=
  let e0 : Int := (log2Fuel p p : Int) - (log2Fuel r r : Int)
  if e0 ≥ 0 then
    if r * 2 ^ e0.toNat ≤ p then e0 else e0 - 1
  else
    if r ≤ p * 2 ^ (-e0).toNat then e0 else e0 - 1

/-- The finite number `± n × 2 ^ k` as a fraction in lowest terms. -/
def dyadic (negative : Bool) (n : Nat) (k : Int) : JSNumber :=
  if n = 0 then .fin 0 1
  else if k ≥ 0 then
    .fin (if negative then -((n * 2 ^ k.toNat : Nat) : Int) else ((n * 2 ^ k.toNat : Nat) : Int)) 1
  else
    .fin
      (if negative then -((n / Nat.gcd n (2 ^ (-k).toNat) : Nat) : Int)
        else ((n / Nat.gcd n (2 ^ (-k).toNat) : Nat) : Int))
      (2 ^ (-k).toNat / Nat.gcd n (2 ^ (-k).toNat))

/-- The fraction `± p / r` rounded to the nearest IEEE-754 binary64 value, ties to even:
53 significant bits, exponents from -1022 (below which the spacing stays `2 ^ -1074`) to
1023, and an infinity from `2 ^ 1024` on. -/
def roundToDouble (negative : Bool) (p r : Nat) : JSNumber :=
  if p = 0 then .fin 0 1
  else
    let e := max (floorLog2 p r) (-1022)
    let s : Int := 52 - e
    let a := if s ≥ 0 then p * 2 ^ s.toNat else p
    let b := if s ≥ 0 then r else r * 2 ^ (-s).toNat
    let n := if b < 2 * (a % b) ∨ (2 * (a % b) = b ∧ a / b % 2 = 1) then a / b + 1 else a / b
    if e ≥ 1024 ∨ (e = 1023 ∧ n = 2 ^ 53) then .inf negative
    else dyadic negative n (-s)

/-- The double nearest to the fraction `num / den`. -/
def JSNumber.ofFraction (num : Int) (den : Nat) : JSNumber :=
  roundToDouble (decide (num < 0)) num.natAbs den

/-- The double nearest to a decimal numeral. -/
def JSNumber.ofDecimal (d : Decimal) : JSNumber :=
  if d.exponent ≥ 0 then .ofFraction (d.mantissa * ((10 ^ d.exponent.toNat : Nat) : Int)) 1
  else .ofFraction d.mantissa (10 ^ (-d.exponent).toNat)

/-- The operator `+` on two numbers: the exact sum, rounded. -/
def JSNumber.add : JSNumber → JSNumber → JSNumber
  | .nan, _ => .nan
  | _, .nan => .nan
  | .inf a, .inf b => if a = b then .inf a else .nan
  | .inf a, .fin _ _ => .inf a
  | .fin _ _, .inf b => .inf b
  | .fin a b, .fin c d => .ofFraction (a * d + c * b) (b * d)

namespace JSValue

/-- ToNumber on a value that is not a string, an array or an object.  The rendering carried
by a number is read back; a rendering that is not one is read as `NaN`. -/
def toNumber : JSValue → JSNumber
  | undefined => .nan
  | null => .fin 0 1
  | bool b => if b then .fin 1 1 else .fin 0 1
  | num repr =>
    if repr == "Infinity" then .inf false
    else if repr == "-Infinity" then .inf true
    else
      match parseDecimal repr with
      | some d => .ofDecimal d
      | none => .nan
  | _ => .nan

/-- The expression `sum + v` for a number `sum`, when its result is a number; a string, an
array or an object makes it a string concatenation (`none`). -/
def plus (sum : JSNumber) (v : JSValue) : Option JSNumber :=
  match v with
  | str _ => none
  | arr _ => none
  | obj _ => none
  | v => some (sum.add v.toNumber)

/-- The operator `===` between two values parsed from different JSON texts: primitives are
compared by value and `NaN` differs from itself; an array or an object is only equal to
itself, hence to nothing parsed elsewhere. -/
def strictEq : JSValue → JSValue → Bool
  | undefined, undefined => true
  | null, null => true
  | bool a, bool b => a == b
  | num a, num b => a == b && a != "NaN"
  | str a, str b => a == b
  | _, _ => false

mutual
/-- Whether React accepts the value as a child: an object is refused, an array is accepted
when all its items are. -/
def validChild : JSValue → Bool
  | obj _ => false
  | arr items => validChildren items
  | _ => true
/-- Whether React accepts every value of a list as a child. -/
def validChildren : List JSValue → Bool
  | [] => true
  | x :: rest => validChild x && validChildren rest
end

end JSValue

/-! ## Forms -/

/-- The fields of the add and edit forms. -/
inductive FormField where
  | amount | date | note | category

/-- The onChange handlers of the add and edit forms:
`setFormData({ ...formData, [field]: e.target.value })`. -/
def onFormChange (formData : FormData) (field : FormField) (value : String) : FormData :=
  match field with
  | .amount => { formData with amount := .str value }
  | .date => { formData with date := .str value }
  | .note => { formData with note := .str value }
  | .category => { formData with category := .str value }

/-- The inputs of the filter modal, each with the key it writes. -/
inductive FilterField where
  | category | start_date | end_date

/-- The key written by a filter input. -/
def FilterField.key : FilterField → String
  | .category => "category"
  | .start_date => "start_date"
  | .end_date => "end_date"

/-- The attributes of an `<input type="number">` that take part in the browser's constraint
validation; `value` is the value content attribute, which React writes on a controlled
input whenever it renders the input unfocused. -/
structure NumberInput where
  required : Bool
  step : Decimal
  min : Option Decimal
  max : Option Decimal
  value : Option Decimal

/-- The amount input of the add and edit forms: `type="number"`, `step="0.01"`, `required`,
neither `min` nor `max`, and the value content attribute as it stands when the form is
submitted. -/
def amountInput (valueAttribute : String) : NumberInput :=
  ⟨true, ⟨1, -2⟩, none, none, parseDecimal valueAttribute⟩

/-- Constraint validation of a number input whose field holds `value`.  A value that is not
a valid floating-point number is sanitised to the empty string, which a required field
refuses; a number must lie between `min` and `max` when these are given, and a whole number
of steps away from the step base: `min`, else the value content attribute, else zero.  The
arithmetic is exact decimal arithmetic. -/
def NumberInput.valid (input : NumberInput) (value : String) : Bool :=
  match parseDecimal value with
  | none => !input.required
  | some v =>
    (match input.min with
      | some lo => lo.le v
      | none => true) &&
    (match input.max with
      | some hi => v.le hi
      | none => true) &&
    v.stepMatches (input.min.getD (input.value.getD ⟨0, 0⟩)) input.step

/-- The number of days of a month. -/
def daysInMonth (year month : Nat) : Nat :=
  if month = 2 then
    if year % 4 = 0 ∧ (year % 100 ≠ 0 ∨ year % 400 = 0) then 29 else 28
  else if month = 4 ∨ month = 6 ∨ month = 9 ∨ month = 11 then 30
  else 31

/-- A valid date string: a year of four or more digits above zero, a two-digit month and a
two-digit day of that month, separated by `-`. -/
def validDateString (s : String) : Bool :=
  let cs := s.toList
  let year := cs.takeWhile (fun c => c != '-')
  match cs.dropWhile (fun c => c != '-') with
  | [_, m1, m2, dash, d1, d2] =>
    match digitsValue year, digitsValue [m1, m2], digitsValue [d1, d2] with
    | some y, some m, some d =>
      dash == '-' && decide (4 ≤ year.length) && decide (0 < y) && decide (1 ≤ m) &&
        decide (m ≤ 12) && decide (1 ≤ d) && decide (d ≤ daysInMonth y m)
    | _, _, _ => false
  | _ => false

/-- The names of the categories of the registry, as the options built by
`categories.map(cat => <option value={cat.name}>...)` carry them. -/
def optionNames (categories : JSValue) : List String :=
  match categories with
  | .arr items =>
    items.map (fun cat =>
      match cat.field "name" with
      | .str name => name
      | _ => "")
  | _ => []

/-- The values of the options of the category select of the add and edit forms:
the single option `other` while `categories.length === 0`, and one option per category,
valued by its name, afterwards. -/
def categoryOptions (categories : JSValue) : List String :=
  match categories with
  | .arr [] => ["other"]
  | .arr items => optionNames (.arr items)
  | _ => ["other"]

/-- The values a control of the add and edit forms can report in `e.target.value`: a number
input reports the empty string or a valid floating-point number, a date input the empty
string or a valid date string, the category select the value of one of its options, and
the note any text. -/
def formOffers (categories : JSValue) (field : FormField) (value : String) : Bool :=
  match field with
  | .amount => value == "" || (parseDecimal value).isSome
  | .date => value == "" || validDateString value
  | .note => true
  | .category => (categoryOptions categories).contains value

/-- The values a control of the filter modal can report: the category select the empty
value of `All Categories` or the name of a category, a date input the empty string or a
valid date string. -/
def filterOffers (categories : JSValue) (field : FilterField) (value : String) : Bool :=
  match field with
  | .category => value == "" || (optionNames categories).contains value
  | .start_date => value == "" || validDateString value
  | .end_date => value == "" || validDateString value

/-- The option shown as selected by a controlled select: the first option whose value is
the string of the controlling value, and the first option when there is none or the
controlling value is `null` or `undefined`. -/
def selectedIndex (options : List String) (value : JSValue) : Nat :=
  match value with
  | .undefined => 0
  | .null => 0
  | v => if options.indexOf v.toStr < options.length then options.indexOf v.toStr else 0

/-- Constraint validation of a required select: it is refused when the selected option is
the first one and its value is empty (the placeholder label option). -/
def selectValid (options : List String) (value : JSValue) : Bool :=
  !(selectedIndex options value == 0 && options.head? == some "")

/-- Constraint validation of the add and edit forms, run by the browser before it fires
`onSubmit`: the amount input, the required date input (whose value is sanitised to the
empty string unless it is a valid date string) and the required category select; the note
carries no constraint. -/
def formValid (valueAttribute : String) (s : AppState) : Bool :=
  (amountInput valueAttribute).valid s.formData.amount.itemStr &&
  validDateString s.formData.date.itemStr &&
  selectValid (categoryOptions s.categories) s.formData.category

/-! ## Header totals -/

/-- The reducer `(sum, exp) => sum + exp.amount` on an accumulator that is still a number;
`none` once reading an amount has thrown or the accumulator has become a string. -/
def addAmount (acc : Option JSNumber) (exp : JSValue) : Option JSNumber :=
  match acc with
  | none => none
  | some sum =>
    match exp.getProp "amount" with
    | .ok amount => JSValue.plus sum amount
    | .error _ => none

/-- The constant `totalExpenses`: `expenses.reduce((sum, exp) => sum + exp.amount, 0)`, when
it is a number.  It is `none` when the evaluation throws (the cache is not an array, or an
item is `null`) or yields a string, in which cases the header cannot be rendered. -/
def totalExpenses (expenses : JSValue) : Option JSNumber :=
  match expenses with
  | .arr items => items.foldl addAmount (some (.fin 0 1))
  | _ => none

/-- The two figures of the header: `totalExpenses` and `expenses.length`. -/
structure HeaderStats where
  total : JSNumber
  count : Nat
  deriving DecidableEq

/-- The header statistics derived from the cache, when the header renders. -/
def headerStats (expenses : JSValue) : Option HeaderStats :=
  match expenses, totalExpenses expenses with
  | .arr items, some total => some ⟨total, items.length⟩
  | _, _ => none

/-! ## Rendering -/

/-- Whether `categories.find(c => c.name === categoryName)` throws: the registry is not an
array, or an item read before the first match is `null`. -/
def findThrows (categories : JSValue) (categoryName : JSValue) : Bool :=
  match categories with
  | .arr items =>
    (items.foldl
      (fun (acc : Option Bool) c =>
        match acc with
        | some done => some done
        | none =>
          match c.getProp "name" with
          | .error _ => some true
          | .ok name => if name.strictEq categoryName then some false else none)
      none).getD false
  | _ => true

/-- Whether the card of an expense renders: its category is looked up and shown, its
amount must have `toFixed`, its date is formatted and its note is shown when truthy.  The
formatting (`format` of date-fns applied to `new Date(expense.date)`) is taken to succeed on
a calendar date `YYYY-MM-DD`; the page is not taken to render on any other date value. -/
def cardRenders (categories : JSValue) (expense : JSValue) : Bool :=
  match expense.getProp "amount" with
  | .ok (.num _) =>
    !findThrows categories (expense.field "category") &&
    (expense.field "category").validChild &&
    (match expense.field "date" with
      | .str date => validDateString date
      | _ => false) &&
    (!(expense.field "note").truthy || (expense.field "note").validChild)
  | _ => false

/-- Whether `categories.map(cat => <option ...>)` renders: the registry is an array whose
items all have a string for name (`cat.name.charAt`). -/
def optionsRender (categories : JSValue) : Bool :=
  match categories with
  | .arr items =>
    items.all (fun cat =>
      match cat.getProp "name" with
      | .ok (.str _) => true
      | _ => false)
  | _ => false

/-- Whether the category select of the add and edit forms renders:
`categories.length === 0 ? <option ...> : categories.map(...)`. -/
def formSelectRenders (categories : JSValue) : Bool :=
  match categories with
  | .undefined => false
  | .null => false
  | .str s => s == ""
  | .obj fields => ((fields.lookup "length").getD .undefined).strictEq (.num "0")
  | .arr items => optionsRender (.arr items)
  | _ => false

/-- Whether the body of the report modal renders for a truthy summary. -/
def reportRenders (categories : JSValue) (summary : JSValue) : Bool :=
  (match summary.getProp "total" with
    | .ok (.num _) => true
    | _ => false) &&
  (summary.field "count").validChild &&
  (match summary.field "by_category" with
    | .obj fields =>
      fields.all (fun kv =>
        !findThrows categories (.str kv.1) &&
        (match kv.2.getProp "total" with
          | .ok (.num _) => true
          | _ => false) &&
        (kv.2.field "count").validChild)
    | .arr items =>
      items.enum.all (fun kv =>
        !findThrows categories (.str (Nat.repr kv.1)) &&
        (match kv.2.getProp "total" with
          | .ok (.num _) => true
          | _ => false) &&
        (kv.2.field "count").validChild)
    | .str text => text == ""
    | _ => true)

/-- Whether the component renders in a state, that is, whether the function `App` returns
without throwing and React accepts what it returns.  A render that throws unmounts the
component. -/
def AppState.renders (s : AppState) : Bool :=
  (totalExpenses s.expenses).isSome &&
  (match s.expenses with
    | .arr items => items.all (cardRenders s.categories)
    | _ => false) &&
  (!s.error.truthy || s.error.validChild) &&
  (!s.showAddModal || formSelectRenders s.categories) &&
  (!s.showEditModal || formSelectRenders s.categories) &&
  (!s.showFilterModal || optionsRender s.categories) &&
  (!(s.showReportModal && s.summary.truthy) || reportRenders s.categories s.summary)

/-! ## The step relation -/

/-- What can happen to the mounted component: a user gesture, or the arrival of the answer
to the request at a given position of the in-flight list.  A submit carries the value
content attribute of the amount input at that moment. -/
inductive Event where
  | openAddModal : Event
  | closeAddModal : Event
  | openEdit (index : Nat) : Event
  | closeEditModal : Event
  | openFilterModal : Event
  | closeFilterModal : Event
  | openReport : Event
  | closeReportModal : Event
  | changeForm (field : FormField) (value : String) : Event
  | changeFilter (field : FilterField) (value : String) : Event
  | applyFilters : Event
  | clearFilters : Event
  | submitAdd (valueAttribute : String) : Event
  | submitUpdate (valueAttribute : String) : Event
  | clickDelete (index : Nat) (confirmed : Bool) : Event
  | dismissError : Event
  | respond (index : Nat) (resp : Response) : Event

/-- Whether an event is a user gesture. -/
def Event.isGesture : Event → Bool
  | .respond _ _ => false
  | _ => true

/-- The card rendered at a position of the expenses grid. -/
def AppState.card (s : AppState) (index : Nat) : Option JSValue :=
  match s.expenses with
  | .arr items => items.get? index
  | _ => none

/-- The continuation of a suspended handler. -/
def resume (today : String) (p : Pending) (resp : Response) (w : World) : World :=
  match p.req with
  | .getCategories => { w with app := fetchCategoriesResume resp w.app }
  | .getExpenses _ => { w with app := fetchExpensesResume resp w.app }
  | .getSummary _ => { w with app := fetchSummaryResume resp w.app }
  | .postExpense _ => handleAddExpenseResume today p.filters resp w
  | .putExpense _ _ => handleUpdateExpenseResume today p.filters resp w
  | .deleteExpense _ => handleDeleteExpenseResume p.filters resp w

/-- A gesture on the rendered page; `none` when the page does not offer it (the control is
not rendered or is disabled, or the form does not pass constraint validation).  The
submit buttons carry `disabled={loading}`; the delete buttons carry no condition. -/
def gesture (today : String) (w : World) : Event → Option World
  | .openAddModal => some { w with app := { w.app with showAddModal := true } }
  | .closeAddModal =>
    if w.app.showAddModal then
      some { w with app := resetForm today { w.app with showAddModal := false } }
    else none
  | .openEdit index =>
    match w.app.card index with
    | some expense =>
      match openEditModal expense w.app with
      | some app => some { w with app := app }
      | none => none
    | none => none
  | .closeEditModal =>
    if w.app.showEditModal then
      let app := resetForm today { w.app with showEditModal := false, currentExpense := .null }
      some { w with app := app }
    else none
  | .openFilterModal => some { w with app := { w.app with showFilterModal := true } }
  | .closeFilterModal =>
    if w.app.showFilterModal then
      some { w with app := { w.app with showFilterModal := false } }
    else none
  | .openReport => some (openReportModal w)
  | .closeReportModal =>
    if w.app.showReportModal && w.app.summary.truthy then
      some { w with app := { w.app with showReportModal := false } }
    else none
  | .changeForm field value =>
    if (w.app.showAddModal || w.app.showEditModal) &&
        formOffers w.app.categories field value then
      some { w with app := { w.app with formData := onFormChange w.app.formData field value } }
    else none
  | .changeFilter field value =>
    if w.app.showFilterModal && filterOffers w.app.categories field value then
      some { w with app := { w.app with filters := onFilterChange w.app.filters field.key value } }
    else none
  | .applyFilters => if w.app.showFilterModal then some (applyFilters w) else none
  | .clearFilters => if w.app.showFilterModal then some (clearFilters w) else none
  | .submitAdd valueAttribute =>
    if w.app.showAddModal && !w.app.loading && formValid valueAttribute w.app then
      some (handleAddExpenseStart w)
    else none
  | .submitUpdate valueAttribute =>
    if w.app.showEditModal && !w.app.loading && formValid valueAttribute w.app then
      some (handleUpdateExpenseStart w)
    else none
  | .clickDelete index confirmed =>
    match w.app.card index with
    | some expense =>
      match expense.getProp "id" with
      | .ok id => some (handleDeleteExpenseStart id confirmed w)
      | .error _ => none
    | none => none
  | .dismissError =>
    if w.app.error.truthy then some { w with app := { w.app with error := .null } } else none
  | .respond _ _ => none

/-- One step of the component.  The arrival of an answer runs the continuation of the
handler that awaits it; a gesture needs the page to render in the current state. -/
def step (today : String) (w : World) (e : Event) : Option World :=
  match e with
  | .respond index resp =>
    match w.inflight.get? index with
    | some p => some (resume today p resp { w with inflight := w.inflight.eraseIdx index })
    | none => none
  | e => if w.app.renders then gesture today w e else none

/-- The component after a sequence of events, when each is offered in turn; `mounted` tells
whether every render so far has succeeded.  Once a render has thrown the component is
unmounted: no gesture is offered any more, while the handlers already suspended still run
when their answers arrive. -/
def runMounted (today : String) : Bool → World → List Event → Option World
  | _, w, [] => some w
  | mounted, w, e :: rest =>
    if e.isGesture && !mounted then none
    else
      match step today w e with
      | some w1 => runMounted today (mounted && w1.app.renders) w1 rest
      | none => none

/-- The component after a sequence of events, from a state that has just been rendered (or
has just failed to). -/
def run (today : String) (w : World) (events : List Event) : Option World :=
  runMounted today w.app.renders w events

/-- The mounted component: the effect hook has called `fetchCategories()` and then
`fetchExpenses()`. -/
def World.initial (today : String) : World :=
  fetchExpensesStart [] (fetchCategoriesStart ⟨AppState.initial today, [], []⟩)

/-- The mutation requests currently in flight. -/
def World.pendingMutations (w : World) : List Request :=
  (w.inflight.map Pending.req).filter Request.isMutation

/-! ## Responses used in the statements -/

/-- The envelope `{ success: true, data: records }`. -/
def successEnvelope (records : JSValue) : JSValue :=
  .obj [("success", .bool true), ("data", records)]

/-- A refresh, category load or mutation fails when the request or the JSON parsing throws
(a `null` body makes the read of `success` throw as well) or when the `success` field of
the body is falsy. -/
def Response.failed : Response → Bool
  | .error _ => true
  | .ok data =>
    match data.getProp "success" with
    | .error _ => true
    | .ok success => !success.truthy

/-! ## Scenario data and frame predicates -/

/-- The draft of the scenario: amount `-5` typed into the add form. -/
def negativeDraft : FormData :=
  ⟨.str "-5", .str "2024-01-15", .str "", .str "other"⟩

/-- The record set returned for the filter `category=food` in the scenario. -/
def foodRecords : JSValue :=
  .arr [.obj [("id", .num "1"), ("amount", .num "50"), ("date", .str "2024-01-10"),
    ("category", .str "food"), ("note", .str "lunch")]]

/-- The record set returned for the filter `category=travel` in the scenario. -/
def travelRecords : JSValue :=
  .arr [.obj [("id", .num "2"), ("amount", .num "20"), ("date", .str "2024-01-11"),
    ("category", .str "travel"), ("note", .str "bus")]]

/-- Refreshes started with `F1` and then, once `F2` has become the active filter, with
`F2`. -/
def startTwoRefreshes (F1 F2 : Filter) (w : World) : World :=
  let w1 := fetchExpensesStart F1 w
  fetchExpensesStart F2 { w1 with app := { w1.app with filters := F2 } }

/-- An answer that respects the response envelope and reports its failure through the
list `errors` rather than through `error`. -/
def errorsOnlyEnvelope : JSValue :=
  .obj [("success", .bool false), ("errors", .arr [.str "start_date must be YYYY-MM-DD"])]

/-- A registry as the store may return it: it gives `other` a colour of its own. -/
def storeCategories : List Category :=
  [⟨1, "food", "#ef4444"⟩, ⟨2, "other", "#000000"⟩]

/-- The two records of the scenario: amounts 50 and 20. -/
def sampleExpenses : List JSValue :=
  [.obj [("id", .num "1"), ("amount", .num "50"), ("date", .str "2024-01-10"),
      ("category", .str "food"), ("note", .str "lunch")],
   .obj [("id", .num "2"), ("amount", .num "20"), ("date", .str "2024-01-11"),
      ("category", .str "travel"), ("note", .str "bus")]]

/-- Two records whose amounts are the integers `2 ^ 53` and 1. -/
def largeExpenses : List JSValue :=
  [.obj [("id", .num "1"), ("amount", .num "9007199254740992"), ("date", .str "2024-01-10"),
      ("category", .str "bills"), ("note", .str "")],
   .obj [("id", .num "2"), ("amount", .num "1"), ("date", .str "2024-01-11"),
      ("category", .str "other"), ("note", .str "")]]

/-- The number held by the `amount` field of a record. -/
def amountOf (expense : JSValue) : JSNumber :=
  (expense.field "amount").toNumber

/-- The part of the component state a failed mutation must leave alone: the cache, the form
data, the current expense and the two form modals. -/
def SameForm (s s1 : AppState) : Prop :=
  s1.expenses = s.expenses ∧ s1.formData = s.formData ∧
  s1.currentExpense = s.currentExpense ∧ s1.showAddModal = s.showAddModal ∧
  s1.showEditModal = s.showEditModal

/-- The form part is untouched and no request has been issued. -/
def Untouched (w w1 : World) : Prop :=
  SameForm w.app w1.app ∧ w1.sent = w.sent ∧ w1.inflight = w.inflight

/-- A rejection by the store, with its messages in `errors`. -/
def rejectionEnvelope : JSValue :=
  .obj [("success", .bool false), ("errors", .arr [.str "Amount must be positive"])]

/-- The answer of the store to the category request: the seven categories. -/
def categoriesAnswer : Response :=
  .ok (successEnvelope (.arr (fallbackCategoriesElse.map Category.toJS)))

/-- The page gets loaded: the category request, then the refresh of the mount, are
answered, the latter with the given records. -/
def loadPage (records : JSValue) : List Event :=
  [.respond 0 categoriesAnswer, .respond 0 (.ok (successEnvelope records))]


/-- The add form holding the draft of the scenario, on the loaded page. -/
def negativeDraftWorld : World :=
  { app :=
      { AppState.initial "2024-01-15" with
        categories := .arr (fallbackCategoriesElse.map Category.toJS)
        showAddModal := true
        formData := negativeDraft }
    inflight := []
    sent := [.getCategories, .getExpenses []] }

/-! ## Filter normalisation (C1) -/

/-- Setting a key that the filter does not hold adds it last. -/
theorem Filter.set_of_not_mem (filters : Filter) (key : String) (value : Option String)
    (h : ∀ kv ∈ filters, kv.1 ≠ key) : Filter.set filters key value = filters ++ [(key, value)] := by
  induction filters with
  | nil => rfl
  | cons kv rest ih =>
    obtain ⟨k, v⟩ := kv
    have hk : k ≠ key := h (k, v) (List.mem_cons_self _ _)
    have hrest : ∀ kv ∈ rest, kv.1 ≠ key := fun kv hkv => h kv (List.mem_cons_of_mem _ hkv)
    simp [Filter.set, hk, ih hrest]

/-- Emptying a field that was never set makes the query one parameter longer: the field
is sent with the value `undefined`. -/
theorem URLSearchParams_onFilterChange_empty (filters : Filter) (key : String)
    (h : ∀ kv ∈ filters, kv.1 ≠ key) :
    URLSearchParams (onFilterChange filters key "") =
      URLSearchParams filters ++ [(key, "undefined")] := by
  simp [onFilterChange, orUndefined, Filter.set_of_not_mem filters key none h, URLSearchParams]

/-- C1, at the failing input.  The user opens the filter modal of the freshly loaded page,
picks the category `food` and then picks `All Categories` again (the select reports the
empty string), and applies: the `filters` object holds the key `category` with the value
`undefined`, and the refresh is requested with the parameter `category=undefined`, whereas
the refresh of the never-set filter (the one issued at mount) carries no parameter. -/
theorem fetchExpenses_sends_emptied_category :
    (run "2024-01-15" (World.initial "2024-01-15")
        (loadPage (.arr []) ++ [.openFilterModal, .changeFilter .category "food",
          .changeFilter .category "", .applyFilters])).map (fun w => (w.app.filters, w.sent)) =
      some ([("category", none)],
        [.getCategories, .getExpenses [], .getExpenses [("category", "undefined")]]) ∧
    URLSearchParams (onFilterChange [] "category" "") ≠ URLSearchParams [] := by
  constructor
  · rfl
  · decide

/-! ## Validation of a draft (C2) -/

/-- C2, counterexample.  On the loaded page the user opens the add form, types the amount
`-5` and submits.  The amount input accepts `-5`, whether its value attribute is still
empty or has been brought in step with the field; the form passes; a POST carrying the
draft is issued and in flight, and the error state is `null`, so nothing was rejected
locally. -/
theorem handleAddExpense_posts_negative_amount :
    (amountInput "").valid "-5" = true ∧
    (amountInput "-5").valid "-5" = true ∧
    (run "2024-01-15" (World.initial "2024-01-15")
        (loadPage (.arr []) ++
          [.openAddModal, .changeForm .amount "-5", .submitAdd ""])).map
        (fun w => (w.sent, w.pendingMutations, w.app.error)) =
      some ([.getCategories, .getExpenses [], .postExpense negativeDraft],
        [.postExpense negativeDraft], .null) := by
  refine ⟨by decide, by decide, rfl⟩

/-- An amount input whose value attribute is in step with its field accepts every number
the field holds: the constraints of the amount input set no bound on it. -/
theorem amountInput_valid_in_step (value : String) (v : Decimal)
    (h : parseDecimal value = some v) : (amountInput value).valid value = true := by
  simp [NumberInput.valid, amountInput, h, Decimal.stepMatches]

/-- C2, amended.  For every draft whose amount is negative and which passes the constraint
validation of the add form (the amount input sets no minimum, so a negative amount is not
refused for its sign), the create operation is not rejected locally: on the rendered page
with the form shown and `loading` off, the submit runs `handleAddExpense`, which raises no
validation error (the error state is cleared to `null`), leaves the draft as it is, with
its negative amount, and issues the POST carrying it, which is then in flight; the amount
input itself accepts the amount once its value attribute is in step with the field. -/
theorem handleAddExpense_negative_amount_not_rejected (today : String) (w : World)
    (valueAttribute : String) (v : Decimal)
    (hrender : w.app.renders = true) (hshown : w.app.showAddModal = true)
    (hidle : w.app.loading = false)
    (hamount : parseDecimal w.app.formData.amount.itemStr = some v) (hneg : v.mantissa < 0)
    (hvalid : formValid valueAttribute w.app = true) :
    step today w (.submitAdd valueAttribute) = some (handleAddExpenseStart w) ∧
    (handleAddExpenseStart w).sent = w.sent ++ [.postExpense w.app.formData] ∧
    (handleAddExpenseStart w).pendingMutations =
      w.pendingMutations ++ [.postExpense w.app.formData] ∧
    (handleAddExpenseStart w).app.error = .null ∧
    (handleAddExpenseStart w).app.formData = w.app.formData ∧
    (parseDecimal (handleAddExpenseStart w).app.formData.amount.itemStr = some v ∧
      v.mantissa < 0) ∧
    (amountInput w.app.formData.amount.itemStr).valid w.app.formData.amount.itemStr = true := by
  refine ⟨?_, ?_, ?_, ?_, ?_, ⟨?_, hneg⟩, amountInput_valid_in_step _ v hamount⟩
  · simp [step, gesture, hrender, hshown, hidle, hvalid]
  · simp [handleAddExpenseStart, World.issue]
  · simp [handleAddExpenseStart, World.issue, World.pendingMutations, Request.isMutation]
  · simp [handleAddExpenseStart, World.issue]
  · simp [handleAddExpenseStart, World.issue]
  · simpa [handleAddExpenseStart, World.issue] using hamount

/-- C2, amended, at the draft of the scenario: amount `-5` in the add form of the loaded
page. -/
theorem handleAddExpense_negative_amount_not_rejected_witness :
    negativeDraftWorld.app.renders = true ∧
    parseDecimal negativeDraftWorld.app.formData.amount.itemStr = some ⟨-5, 0⟩ ∧
    formValid "" negativeDraftWorld.app = true ∧
    step "2024-01-15" negativeDraftWorld (.submitAdd "") =
      some (handleAddExpenseStart negativeDraftWorld) ∧
    (handleAddExpenseStart negativeDraftWorld).sent =
      negativeDraftWorld.sent ++ [.postExpense negativeDraftWorld.app.formData] ∧
    (handleAddExpenseStart negativeDraftWorld).app.error = .null :=
  ⟨rfl, by decide, by decide,
    (handleAddExpense_negative_amount_not_rejected "2024-01-15" negativeDraftWorld "" ⟨-5, 0⟩
      rfl rfl rfl (by decide) (by decide) (by decide)).1,
    (handleAddExpense_negative_amount_not_rejected "2024-01-15" negativeDraftWorld "" ⟨-5, 0⟩
      rfl rfl rfl (by decide) (by decide) (by decide)).2.1,
    (handleAddExpense_negative_amount_not_rejected "2024-01-15" negativeDraftWorld "" ⟨-5, 0⟩
      rfl rfl rfl (by decide) (by decide) (by decide)).2.2.2.1⟩

/-! ## Out-of-order refreshes (C3) -/

/-- The successful answer to a refresh replaces the cache by the `data` field. -/
theorem fetchExpensesResume_success (records : JSValue) (s : AppState) :
    fetchExpensesResume (.ok (successEnvelope records)) s =
      { s with expenses := records, loading := false } := by
  simp [fetchExpensesResume, fetchExpensesSettle, successEnvelope, JSValue.getProp,
    List.lookup, JSValue.truthy]

/-- C3, counterexample.  On the loaded page the user applies the filter `category=food`
(F1), then changes it to `category=travel` (F2) and applies again; the answer to the
second refresh arrives first and the answer to the first arrives afterwards.  The active
filter is still F2, yet the cache holds the record set of F1, which differs from that of
F2. -/
theorem fetchExpenses_late_response_overwrites :
    (run "2024-01-15" (World.initial "2024-01-15")
        (loadPage (.arr []) ++
          [.openFilterModal, .changeFilter .category "food", .applyFilters,
           .openFilterModal, .changeFilter .category "travel", .applyFilters,
           .respond 1 (.ok (successEnvelope travelRecords)),
           .respond 0 (.ok (successEnvelope foodRecords))])).map
        (fun w => (w.app.filters, w.app.expenses, w.sent)) =
      some ([("category", some "travel")], foodRecords,
        [.getCategories, .getExpenses [], .getExpenses [("category", "food")],
         .getExpenses [("category", "travel")]]) ∧
    foodRecords ≠ travelRecords := by
  constructor
  · rfl
  · simp [foodRecords, travelRecords]

/-- The request added last is found at the old length of the in-flight list. -/
theorem get?_append_last (l : List Pending) (a : Pending) :
    (l ++ [a]).get? l.length = some a := by
  induction l with
  | nil => rfl
  | cons x xs ih => simp

/-- Removing the request added last restores the in-flight list. -/
theorem eraseIdx_append_last (l : List Pending) (a : Pending) :
    (l ++ [a]).eraseIdx l.length = l := by
  induction l with
  | nil => rfl
  | cons x xs ih => simpa using ih

/-- Of two requests added in turn, the second is found one past the old length. -/
theorem get?_append_second (l : List Pending) (a b : Pending) :
    (l ++ [a, b]).get? (l.length + 1) = some b := by
  induction l with
  | nil => rfl
  | cons x xs ih => simpa using ih

/-- Removing the second of two requests added in turn leaves the first in flight. -/
theorem eraseIdx_append_second (l : List Pending) (a b : Pending) :
    (l ++ [a, b]).eraseIdx (l.length + 1) = l ++ [a] := by
  induction l with
  | nil => rfl
  | cons x xs ih => simpa using ih

/-- C3, amended.  From any state of the component, let refreshes be started with F1 and
then, F2 having become the active filter, with F2, and let the successful answer to the
second arrive before the successful answer to the first.  Both arrivals are accepted, the
active filter is still F2, and the cache ends up holding the record set of the answer that
arrived last, that of F1: `fetchExpenses` applies every successful answer without
comparing it with the active filter. -/
theorem fetchExpenses_last_arrival_wins (today : String) (w : World) (F1 F2 : Filter)
    (R1 R2 : JSValue) :
    run today (startTwoRefreshes F1 F2 w)
        [.respond (w.inflight.length + 1) (.ok (successEnvelope R2)),
         .respond w.inflight.length (.ok (successEnvelope R1))] =
      some
        { app := { w.app with filters := F2, expenses := R1, loading := false, error := .null }
          inflight := w.inflight
          sent := w.sent ++ [.getExpenses (URLSearchParams F1), .getExpenses (URLSearchParams F2)] } := by
  have hstart : startTwoRefreshes F1 F2 w =
      { app := { w.app with filters := F2, loading := true, error := .null }
        inflight := w.inflight ++ [⟨.getExpenses (URLSearchParams F1), w.app.filters⟩,
          ⟨.getExpenses (URLSearchParams F2), F2⟩]
        sent := w.sent ++ [.getExpenses (URLSearchParams F1), .getExpenses (URLSearchParams F2)] } := by
    simp [startTwoRefreshes, fetchExpensesStart, World.issue]
  rw [hstart]
  simp only [run, runMounted, Event.isGesture, Bool.false_and, Bool.false_eq_true, if_false,
    step, get?_append_second, eraseIdx_append_second, resume, get?_append_last,
    eraseIdx_append_last, fetchExpensesResume_success]

/-! ## Reading the envelope -/

/-- Whether a property read throws does not depend on the property: once one read of
`data` has succeeded, every read yields the field. -/
theorem JSValue.getProp_of_ok {data v : JSValue} {name : String} (other : String)
    (h : data.getProp name = .ok v) : data.getProp other = .ok (data.field other) := by
  cases data <;> simp_all [JSValue.getProp, JSValue.field]

/-- A read that succeeds yields the field. -/
theorem JSValue.field_of_ok {data v : JSValue} {name : String}
    (h : data.getProp name = .ok v) : data.field name = v := by
  simp [JSValue.field, h]

/-- A read that throws, throws for every property. -/
theorem JSValue.getProp_of_error {data : JSValue} {name message : String} (other : String)
    (h : data.getProp name = .error message) : ∃ m, data.getProp other = .error m := by
  cases data <;> simp_all [JSValue.getProp]

/-- The refresh whose request or parsing threw. -/
theorem fetchExpensesSettle_error (message : String) (s : AppState) :
    fetchExpensesSettle (.error message) s = { s with error := .str "Failed to fetch expenses" } :=
  rfl

/-- The refresh whose body cannot be read. -/
theorem fetchExpensesSettle_unreadable (data : JSValue) (message : String) (s : AppState)
    (h : data.getProp "success" = .error message) :
    fetchExpensesSettle (.ok data) s = { s with error := .str "Failed to fetch expenses" } := by
  simp [fetchExpensesSettle, h]

/-- The refresh whose body has a truthy `success`. -/
theorem fetchExpensesSettle_truthy (data success : JSValue) (s : AppState)
    (h : data.getProp "success" = .ok success) (ht : success.truthy = true) :
    fetchExpensesSettle (.ok data) s = { s with expenses := data.field "data" } := by
  simp [fetchExpensesSettle, h, ht, JSValue.getProp_of_ok "data" h]

/-- The refresh whose body has a falsy `success`. -/
theorem fetchExpensesSettle_falsy (data success : JSValue) (s : AppState)
    (h : data.getProp "success" = .ok success) (ht : success.truthy = false) :
    fetchExpensesSettle (.ok data) s = { s with error := data.field "error" } := by
  simp [fetchExpensesSettle, h, ht, JSValue.getProp_of_ok "error" h]

/-! ## Failing refreshes (C4) -/

/-- C4, counterexample.  The store answers the first refresh with `success: false` and
its messages in `errors`: the refresh has failed, and the error state is `undefined`,
which is not a non-empty value and shows nothing to the user. -/
theorem fetchExpenses_failure_without_error_field :
    Response.failed (.ok errorsOnlyEnvelope) = true ∧
    (run "2024-01-15" (World.initial "2024-01-15") [.respond 1 (.ok errorsOnlyEnvelope)]).map
        (fun w => (w.app.error, w.app.error.truthy)) = some (.undefined, false) := by
  constructor <;> rfl

/-- A failing answer, arriving in any state, leaves the cache as it is, clears `loading`
and sets the error state to the `error` field of the body, or to the generic message when
the body cannot be read. -/
theorem fetchExpensesResume_of_failed (resp : Response) (s : AppState)
    (hfail : resp.failed = true) :
    (fetchExpensesResume resp s).expenses = s.expenses ∧
    (fetchExpensesResume resp s).loading = false ∧
    (fetchExpensesResume resp s).error =
      (match resp with
        | .error _ => .str "Failed to fetch expenses"
        | .ok data =>
          match data.getProp "error" with
          | .error _ => .str "Failed to fetch expenses"
          | .ok e => e) := by
  cases resp with
  | error message => simp [fetchExpensesResume, fetchExpensesSettle_error]
  | ok data =>
    cases hs : data.getProp "success" with
    | error message =>
      obtain ⟨m, hm⟩ := JSValue.getProp_of_error "error" hs
      simp [fetchExpensesResume, fetchExpensesSettle_unreadable data message s hs, hm]
    | ok success =>
      have ht : success.truthy = false := by simpa [Response.failed, hs] using hfail
      simp [fetchExpensesResume, fetchExpensesSettle_falsy data success s hs ht,
        JSValue.getProp_of_ok "error" hs]

/-- C4, amended.  For every cache content, every filter and every failing refresh (the
request or the parsing throws, the body cannot be read, or its `success` is falsy), the
call of `fetchExpenses` leaves the cache exactly as it was before the call: its first
half, which issues the request, does not touch the cache, and its second half, in whatever
state the answer arrives, leaves the cache of that state alone and clears `loading`.  When
the answer arrives next, the component ends with the cache it had before the call,
`loading` off and the request no longer in flight.  The error state becomes the `error`
field of the body when the store answered, and `Failed to fetch expenses` when the
request or the parsing threw or the body was `null`; it is a non-empty value precisely
when the request threw or the body carries a truthy `error` field. -/
theorem fetchExpenses_failure_keeps_cache (today : String) (filterParams : Filter)
    (resp : Response) (w : World) (hfail : resp.failed = true) :
    (fetchExpensesStart filterParams w).app.expenses = w.app.expenses ∧
    (fetchExpensesStart filterParams w).sent =
      w.sent ++ [.getExpenses (URLSearchParams filterParams)] ∧
    (∀ s : AppState,
      (fetchExpensesResume resp s).expenses = s.expenses ∧
      (fetchExpensesResume resp s).loading = false) ∧
    (step today (fetchExpensesStart filterParams w) (.respond w.inflight.length resp)).map
        (fun w1 => (w1.app.expenses, w1.app.loading, w1.inflight, w1.sent)) =
      some (w.app.expenses, false, w.inflight,
        w.sent ++ [.getExpenses (URLSearchParams filterParams)]) ∧
    (step today (fetchExpensesStart filterParams w) (.respond w.inflight.length resp)).map
        (fun w1 => w1.app.error) =
      some
        (match resp with
          | .error _ => .str "Failed to fetch expenses"
          | .ok data =>
            match data.getProp "error" with
            | .error _ => .str "Failed to fetch expenses"
            | .ok e => e) ∧
    (step today (fetchExpensesStart filterParams w) (.respond w.inflight.length resp)).map
        (fun w1 => w1.app.error.truthy) =
      some
        (match resp with
          | .error _ => true
          | .ok data =>
            match data.getProp "error" with
            | .error _ => true
            | .ok e => e.truthy) := by
  have hstep : step today (fetchExpensesStart filterParams w) (.respond w.inflight.length resp) =
      some
        { app := fetchExpensesResume resp { w.app with loading := true, error := .null }
          inflight := w.inflight
          sent := w.sent ++ [.getExpenses (URLSearchParams filterParams)] } := by
    simp only [step, fetchExpensesStart, World.issue, get?_append_last, eraseIdx_append_last,
      resume]
  have hres := fetchExpensesResume_of_failed resp { w.app with loading := true, error := .null }
    hfail
  refine ⟨rfl, rfl, fun s => ⟨(fetchExpensesResume_of_failed resp s hfail).1,
    (fetchExpensesResume_of_failed resp s hfail).2.1⟩, ?_, ?_, ?_⟩
  · simp [hstep, hres.1, hres.2.1]
  · simp [hstep, hres.2.2]
  · rw [hstep, Option.map_some', hres.2.2]
    cases resp with
    | error message => simp [JSValue.truthy]
    | ok data =>
      cases hd : data.getProp "error" with
      | error message => simp [hd, JSValue.truthy]
      | ok e => simp [hd]

/-- C4, amended, at a store failure carrying a message and at a thrown request, on a
component whose cache holds the food records when the refresh is called. -/
theorem fetchExpenses_failure_keeps_cache_witness :
    (step "2024-01-15"
        (fetchExpensesStart [("category", some "food")]
          ⟨{ AppState.initial "2024-01-15" with expenses := foodRecords }, [], []⟩)
        (.respond 0
          (.ok (.obj [("success", .bool false), ("error", .str "Database unavailable")])))).map
        (fun w1 => (w1.app.expenses, w1.app.loading, w1.inflight, w1.sent)) =
      some (foodRecords, false, [], [.getExpenses [("category", "food")]]) ∧
    (step "2024-01-15"
        (fetchExpensesStart [("category", some "food")]
          ⟨{ AppState.initial "2024-01-15" with expenses := foodRecords }, [], []⟩)
        (.respond 0
          (.ok (.obj [("success", .bool false), ("error", .str "Database unavailable")])))).map
        (fun w1 => w1.app.error) = some (.str "Database unavailable") ∧
    (step "2024-01-15"
        (fetchExpensesStart [("category", some "food")]
          ⟨{ AppState.initial "2024-01-15" with expenses := foodRecords }, [], []⟩)
        (.respond 0 (.error "Failed to fetch"))).map
        (fun w1 => (w1.app.expenses, w1.app.loading, w1.inflight, w1.sent)) =
      some (foodRecords, false, [], [.getExpenses [("category", "food")]]) ∧
    (step "2024-01-15"
        (fetchExpensesStart [("category", some "food")]
          ⟨{ AppState.initial "2024-01-15" with expenses := foodRecords }, [], []⟩)
        (.respond 0 (.error "Failed to fetch"))).map
        (fun w1 => w1.app.error) = some (.str "Failed to fetch expenses") :=
  ⟨(fetchExpenses_failure_keeps_cache "2024-01-15" [("category", some "food")]
      (.ok (.obj [("success", .bool false), ("error", .str "Database unavailable")]))
      ⟨{ AppState.initial "2024-01-15" with expenses := foodRecords }, [], []⟩ rfl).2.2.2.1,
   (fetchExpenses_failure_keeps_cache "2024-01-15" [("category", some "food")]
      (.ok (.obj [("success", .bool false), ("error", .str "Database unavailable")]))
      ⟨{ AppState.initial "2024-01-15" with expenses := foodRecords }, [], []⟩ rfl).2.2.2.2.1,
   (fetchExpenses_failure_keeps_cache "2024-01-15" [("category", some "food")]
      (.error "Failed to fetch")
      ⟨{ AppState.initial "2024-01-15" with expenses := foodRecords }, [], []⟩ rfl).2.2.2.1,
   (fetchExpenses_failure_keeps_cache "2024-01-15" [("category", some "food")]
      (.error "Failed to fetch")
      ⟨{ AppState.initial "2024-01-15" with expenses := foodRecords }, [], []⟩ rfl).2.2.2.2.1⟩

/-! ## Malformed envelopes (C5) -/

/-- C5, counterexample.  The store answers the first refresh with the body
`{ success: true }`, which has no `data` list: the cache, the empty list until then, is
replaced by `undefined`, and the error state stays `null`. -/
theorem fetchExpenses_success_without_data :
    (World.initial "2024-01-15").app.expenses = .arr [] ∧
    (run "2024-01-15" (World.initial "2024-01-15")
        [.respond 1 (.ok (.obj [("success", .bool true)]))]).map
        (fun w => (w.app.expenses, w.app.error)) = some (.undefined, .null) ∧
    JSValue.undefined ≠ .arr [] := by
  refine ⟨rfl, rfl, ?_⟩
  simp

/-- C5, amended.  `fetchExpenses` looks at the truthiness of `success` and at nothing else
of the envelope.  When reading `success` throws (the request or the parsing threw, or the
body is `null`) the cache is unchanged and `Failed to fetch expenses` is reported.  When
`success` is absent or falsy the cache is unchanged and the error state becomes the `error`
field of the body (`undefined` when absent), not the generic message.  When `success` is
truthy the cache is replaced by the `data` field whatever it holds (`undefined` when
absent) and the error state is left as it was. -/
theorem fetchExpenses_reads_only_success (resp : Response) (s : AppState) :
    match resp with
    | .error _ =>
      (fetchExpensesResume resp s).expenses = s.expenses ∧
      (fetchExpensesResume resp s).error = .str "Failed to fetch expenses"
    | .ok data =>
      match data.getProp "success" with
      | .error _ =>
        (fetchExpensesResume resp s).expenses = s.expenses ∧
        (fetchExpensesResume resp s).error = .str "Failed to fetch expenses"
      | .ok success =>
        if success.truthy then
          (fetchExpensesResume resp s).expenses = data.field "data" ∧
          (fetchExpensesResume resp s).error = s.error
        else
          (fetchExpensesResume resp s).expenses = s.expenses ∧
          (fetchExpensesResume resp s).error = data.field "error" := by
  cases resp with
  | error message => simp [fetchExpensesResume, fetchExpensesSettle_error]
  | ok data =>
    cases hs : data.getProp "success" with
    | error message =>
      simp [fetchExpensesResume, fetchExpensesSettle_unreadable data message s hs, hs]
    | ok success =>
      cases ht : success.truthy with
      | true => simp [fetchExpensesResume, fetchExpensesSettle_truthy data success s hs ht, hs, ht]
      | false => simp [fetchExpensesResume, fetchExpensesSettle_falsy data success s hs ht, hs, ht]

/-! ## Colour lookup (C6) -/

/-- C6, counterexample.  The registry holds `food` and `other`, the latter with the colour
`#000000`.  No category is named `rent`, and the lookup of `rent` returns `#6b7280`, which
is not the colour the registry associates with `other`. -/
theorem getCategoryColor_ignores_registry_other :
    storeCategories.find? (fun c => c.name == "rent") = none ∧
    (storeCategories.find? (fun c => c.name == "other")).map Category.color = some "#000000" ∧
    getCategoryColor storeCategories "rent" = "#6b7280" ∧
    getCategoryColor storeCategories "rent" ≠ "#000000" := by
  decide

/-- The search of `getCategoryColor` stops at the first category bearing the name. -/
theorem find?_name_first (pre post : List Category) (c : Category) (name : String)
    (hpre : ∀ p ∈ pre, p.name ≠ name) (hc : c.name = name) :
    (pre ++ c :: post).find? (fun c => c.name == name) = some c := by
  induction pre with
  | nil => simp [List.find?, hc]
  | cons p rest ih =>
    have hp : (p.name == name) = false := by simpa using hpre p (List.mem_cons_self _ _)
    have hrest : ∀ q ∈ rest, q.name ≠ name := fun q hq => hpre q (List.mem_cons_of_mem _ hq)
    simp [List.find?, hp, ih hrest]

/-- The search of `getCategoryColor` fails when no category bears the name. -/
theorem find?_name_none (categories : List Category) (name : String)
    (h : ∀ c ∈ categories, c.name ≠ name) :
    categories.find? (fun c => c.name == name) = none := by
  simp only [List.find?_eq_none]
  intro c hc
  simpa using h c hc

/-- C6, amended.  For every category list and every name, `getCategoryColor` returns the
colour of the first category whose name equals the given name (case-sensitive) when there
is one and its colour is not empty, and returns the constant `#6b7280` otherwise: when the
matching colour is empty, and when no category bears the name, whatever colour the
registry gives to `other`.  The constant is the colour of `other` in the hardcoded default
table.  Being a total function, it returns a value for every name. -/
theorem getCategoryColor_first_match_or_constant (categories : List Category) (name : String) :
    (∀ (pre post : List Category) (c : Category), categories = pre ++ c :: post →
      (∀ p ∈ pre, p.name ≠ name) → c.name = name →
      getCategoryColor categories name = if c.color = "" then "#6b7280" else c.color) ∧
    ((∀ c ∈ categories, c.name ≠ name) → getCategoryColor categories name = "#6b7280") ∧
    (fallbackCategoriesElse.find? (fun c => c.name == "other")).map Category.color =
      some "#6b7280" := by
  refine ⟨?_, ?_, by decide⟩
  · intro pre post c hsplit hpre hc
    subst hsplit
    simp only [getCategoryColor, find?_name_first pre post c name hpre hc]
    by_cases hcolor : c.color = "" <;> simp [hcolor]
  · intro h
    simp [getCategoryColor, find?_name_none categories name h]

/-- C6, amended, on the loaded store registry: `food` resolves to its own colour, and an
unknown name resolves to the constant. -/
theorem getCategoryColor_first_match_or_constant_witness :
    getCategoryColor storeCategories "food" = "#ef4444" ∧
    getCategoryColor storeCategories "rent" = "#6b7280" :=
  ⟨(getCategoryColor_first_match_or_constant storeCategories "food").1 []
      [⟨2, "other", "#000000"⟩] ⟨1, "food", "#ef4444"⟩ rfl (by simp) rfl,
   (getCategoryColor_first_match_or_constant storeCategories "rent").2.1 (by decide)⟩

/-! ## Default categories (C7) -/

/-- C7.  Whenever the category request fails (it throws, its body cannot be read, or its
`success` is falsy), `fetchCategories` sets the registry to exactly the seven default
categories, the array of the objects `{ id, name, color }` written out below, named food,
travel, bills, entertainment, shopping, health and other in this order; the table of the
`catch` block and that of the `else` branch are the same list, so both failure branches
store the same registry. -/
theorem fetchCategories_failure_defaults (resp : Response) (s : AppState)
    (hfail : resp.failed = true) :
    (fetchCategoriesResume resp s).categories =
      .arr
        [.obj [("id", .num "1"), ("name", .str "food"), ("color", .str "#ef4444")],
         .obj [("id", .num "2"), ("name", .str "travel"), ("color", .str "#3b82f6")],
         .obj [("id", .num "3"), ("name", .str "bills"), ("color", .str "#f59e0b")],
         .obj [("id", .num "4"), ("name", .str "entertainment"), ("color", .str "#8b5cf6")],
         .obj [("id", .num "5"), ("name", .str "shopping"), ("color", .str "#ec4899")],
         .obj [("id", .num "6"), ("name", .str "health"), ("color", .str "#10b981")],
         .obj [("id", .num "7"), ("name", .str "other"), ("color", .str "#6b7280")]] ∧
    (fetchCategoriesResume resp s).categories = .arr (fallbackCategoriesElse.map Category.toJS) ∧
    (fetchCategoriesResume resp s).categories = .arr (fallbackCategoriesCatch.map Category.toJS) ∧
    fallbackCategoriesElse.map Category.name =
      ["food", "travel", "bills", "entertainment", "shopping", "health", "other"] ∧
    fallbackCategoriesElse.length = 7 ∧
    fallbackCategoriesCatch = fallbackCategoriesElse := by
  have hreg : (fetchCategoriesResume resp s).categories =
      .arr (fallbackCategoriesElse.map Category.toJS) := by
    cases resp with
    | error message => rfl
    | ok data =>
      cases hs : data.getProp "success" with
      | error message => simp only [fetchCategoriesResume, hs]; rfl
      | ok success =>
        have ht : success.truthy = false := by simpa [Response.failed, hs] using hfail
        simp [fetchCategoriesResume, hs, ht]
  exact ⟨hreg.trans rfl, hreg, hreg.trans rfl, rfl, rfl, rfl⟩

/-- C7, when the request throws and when the store answers `success: false`: in both
cases the registry holds seven entries, the last of which is `other`. -/
theorem fetchCategories_failure_defaults_witness :
    (fetchCategoriesResume (.error "Failed to fetch") (AppState.initial "2024-01-15")).categories =
      (fetchCategoriesResume (.ok (.obj [("success", .bool false)]))
        (AppState.initial "2024-01-15")).categories ∧
    (fetchCategoriesResume (.ok (.obj [("success", .bool false)]))
        (AppState.initial "2024-01-15")).categories =
      .arr
        [.obj [("id", .num "1"), ("name", .str "food"), ("color", .str "#ef4444")],
         .obj [("id", .num "2"), ("name", .str "travel"), ("color", .str "#3b82f6")],
         .obj [("id", .num "3"), ("name", .str "bills"), ("color", .str "#f59e0b")],
         .obj [("id", .num "4"), ("name", .str "entertainment"), ("color", .str "#8b5cf6")],
         .obj [("id", .num "5"), ("name", .str "shopping"), ("color", .str "#ec4899")],
         .obj [("id", .num "6"), ("name", .str "health"), ("color", .str "#10b981")],
         .obj [("id", .num "7"), ("name", .str "other"), ("color", .str "#6b7280")]] :=
  ⟨(fetchCategories_failure_defaults (.error "Failed to fetch")
      (AppState.initial "2024-01-15") rfl).1.trans
    (fetchCategories_failure_defaults (.ok (.obj [("success", .bool false)]))
      (AppState.initial "2024-01-15") rfl).1.symm,
   (fetchCategories_failure_defaults (.ok (.obj [("success", .bool false)]))
      (AppState.initial "2024-01-15") rfl).1⟩

/-! ## Header totals (C8) -/

/-- On records with numeric amounts the reducer never leaves the numbers: the accumulation
is the left-to-right accumulation of the amounts by the addition of numbers. -/
theorem foldl_addAmount_numeric (items : List JSValue) (start : JSNumber)
    (hnum : ∀ e ∈ items, ∃ repr, e.getProp "amount" = .ok (.num repr)) :
    items.foldl addAmount (some start) =
      some ((items.map amountOf).foldl JSNumber.add start) := by
  induction items generalizing start with
  | nil => rfl
  | cons e rest ih =>
    obtain ⟨repr, he⟩ := hnum e (List.mem_cons_self _ _)
    have hrest : ∀ x ∈ rest, ∃ repr, x.getProp "amount" = .ok (.num repr) :=
      fun x hx => hnum x (List.mem_cons_of_mem _ hx)
    have hstep : addAmount (some start) e = some (start.add (amountOf e)) := by
      simp [addAmount, he, JSValue.plus, amountOf, JSValue.field]
    simp only [List.foldl_cons, List.map_cons, hstep, ih _ hrest]

/-- C8, counterexample.  The cache holds two records whose amounts are the integers
9007199254740992 and 1.  The header shows the count 2 and the total 9007199254740992,
which is not the sum 9007199254740993 of the two amounts. -/
theorem totalExpenses_rounds_large_sum :
    headerStats (.arr largeExpenses) = some ⟨.fin 9007199254740992 1, 2⟩ ∧
    largeExpenses.map amountOf = [.fin 9007199254740992 1, .fin 1 1] ∧
    JSNumber.fin (9007199254740992 + 1) 1 ≠ .fin 9007199254740992 1 := by
  refine ⟨by decide, by decide, by decide⟩

/-- C8, amended.  For every list of expense records with numeric amounts held by the cache,
the header renders; the count it shows is the length of the list and the total is the
accumulation of the amounts of all records in list order, starting from 0, by the
addition of JavaScript numbers, which rounds every partial sum to the nearest double.  No
record is dropped or reordered: a record added at the end adds one to the count and is
added last to the total. -/
theorem headerStats_total_count (items : List JSValue)
    (hnum : ∀ e ∈ items, ∃ repr, e.getProp "amount" = .ok (.num repr)) :
    headerStats (.arr items) =
      some ⟨(items.map amountOf).foldl JSNumber.add (.fin 0 1), items.length⟩ ∧
    ∀ e repr, e.getProp "amount" = .ok (.num repr) →
      headerStats (.arr (items ++ [e])) =
        some ⟨((items.map amountOf).foldl JSNumber.add (.fin 0 1)).add (amountOf e),
          items.length + 1⟩ := by
  have hall : ∀ l : List JSValue, (∀ e ∈ l, ∃ repr, e.getProp "amount" = .ok (.num repr)) →
      headerStats (.arr l) = some ⟨(l.map amountOf).foldl JSNumber.add (.fin 0 1), l.length⟩ := by
    intro l hl
    simp [headerStats, totalExpenses, foldl_addAmount_numeric l _ hl]
  refine ⟨hall items hnum, ?_⟩
  intro e repr he
  have hsnoc : ∀ x ∈ items ++ [e], ∃ repr, x.getProp "amount" = .ok (.num repr) := by
    intro x hx
    rcases List.mem_append.1 hx with hx | hx
    · exact hnum x hx
    · rw [List.mem_singleton.1 hx]
      exact ⟨repr, he⟩
  rw [hall _ hsnoc]
  simp [List.foldl_append]

set_option maxRecDepth 100000 in
/-- C8, amended, on the scenario: amounts 50 and 20 give the total 70 and the count 2. -/
theorem headerStats_total_count_witness :
    headerStats (.arr sampleExpenses) = some ⟨.fin 70 1, 2⟩ :=
  (headerStats_total_count sampleExpenses (by
    intro e he
    simp only [sampleExpenses, List.mem_cons, List.mem_singleton, List.not_mem_nil,
      or_false] at he
    rcases he with rfl | rfl
    · exact ⟨"50", rfl⟩
    · exact ⟨"20", rfl⟩)).1.trans (by decide)

/-! ## Failed mutations (C9) -/

/-- A failing answer to a create changes nothing but the error state. -/
theorem handleAddExpenseSettle_of_failed (today : String) (filters : Filter) (resp : Response)
    (w : World) (hfail : resp.failed = true) :
    ∃ e, handleAddExpenseSettle today filters resp w = { w with app := { w.app with error := e } } := by
  cases resp with
  | error message => exact ⟨_, rfl⟩
  | ok data =>
    cases hs : data.getProp "success" with
    | error message => exact ⟨.str ("Failed to add expense: " ++ message), by simp [handleAddExpenseSettle, hs]⟩
    | ok success =>
      have ht : success.truthy = false := by simpa [Response.failed, hs] using hfail
      cases hr : reportedErrors data with
      | error message => exact ⟨.str ("Failed to add expense: " ++ message), by simp [handleAddExpenseSettle, hs, ht, hr]⟩
      | ok errorMsg => exact ⟨errorMsg, by simp [handleAddExpenseSettle, hs, ht, hr]⟩

/-- A failing answer to an update changes nothing but the error state. -/
theorem handleUpdateExpenseSettle_of_failed (today : String) (filters : Filter)
    (resp : Response) (w : World) (hfail : resp.failed = true) :
    ∃ e, handleUpdateExpenseSettle today filters resp w =
      { w with app := { w.app with error := e } } := by
  cases resp with
  | error message => exact ⟨_, rfl⟩
  | ok data =>
    cases hs : data.getProp "success" with
    | error message => exact ⟨.str "Failed to update expense", by simp [handleUpdateExpenseSettle, hs]⟩
    | ok success =>
      have ht : success.truthy = false := by simpa [Response.failed, hs] using hfail
      cases hr : reportedErrors data with
      | error message => exact ⟨.str "Failed to update expense", by simp [handleUpdateExpenseSettle, hs, ht, hr]⟩
      | ok errorMsg => exact ⟨errorMsg, by simp [handleUpdateExpenseSettle, hs, ht, hr]⟩

/-- C9.  For every state of the component at the arrival of a failing answer to a create
or an update (the request threw, the body cannot be read, or its `success` is falsy), the
second halves of `handleAddExpense` and `handleUpdateExpense` leave the cache, the form
data, the current expense and the open modal as they are and issue no request, hence no
refresh; `loading` is cleared.  The error state becomes the reported error: the value of
`data.errors?.join(', ') || data.error` when the store answered, and the message
`Failed to add expense: ` followed by the thrown message, respectively
`Failed to update expense`, when the request threw.  The first halves, which issue the
mutation itself, leave the same part of the state alone, and an update without a current
expense issues nothing. -/
theorem mutation_failure_frame (today : String) (filters : Filter) (resp : Response)
    (w : World) (hfail : resp.failed = true) :
    Untouched w (handleAddExpenseResume today filters resp w) ∧
    Untouched w (handleUpdateExpenseResume today filters resp w) ∧
    (handleAddExpenseResume today filters resp w).app.loading = false ∧
    (handleUpdateExpenseResume today filters resp w).app.loading = false ∧
    (∀ message, resp = .error message →
      (handleAddExpenseResume today filters resp w).app.error =
        .str ("Failed to add expense: " ++ message) ∧
      (handleUpdateExpenseResume today filters resp w).app.error =
        .str "Failed to update expense") ∧
    (∀ data errorMsg, resp = .ok data → reportedErrors data = .ok errorMsg →
      (handleAddExpenseResume today filters resp w).app.error = errorMsg ∧
      (handleUpdateExpenseResume today filters resp w).app.error = errorMsg) ∧
    SameForm w.app (handleAddExpenseStart w).app ∧
    SameForm w.app (handleUpdateExpenseStart w).app ∧
    (handleAddExpenseStart w).sent = w.sent ++ [.postExpense w.app.formData] ∧
    (w.app.currentExpense = .null → (handleUpdateExpenseStart w).sent = w.sent) := by
  have hstart : SameForm w.app (handleAddExpenseStart w).app ∧
      SameForm w.app (handleUpdateExpenseStart w).app ∧
      (handleAddExpenseStart w).sent = w.sent ++ [.postExpense w.app.formData] ∧
      (w.app.currentExpense = .null → (handleUpdateExpenseStart w).sent = w.sent) := by
    refine ⟨by simp [SameForm, handleAddExpenseStart, World.issue], ?_,
      by simp [handleAddExpenseStart, World.issue], ?_⟩
    · unfold handleUpdateExpenseStart
      split <;> simp [SameForm, World.issue]
    · intro hnull
      simp [handleUpdateExpenseStart, hnull, JSValue.getProp]
  obtain ⟨ea, ha⟩ := handleAddExpenseSettle_of_failed today filters resp w hfail
  obtain ⟨eu, hu⟩ := handleUpdateExpenseSettle_of_failed today filters resp w hfail
  refine ⟨by simp [Untouched, SameForm, handleAddExpenseResume, ha],
    by simp [Untouched, SameForm, handleUpdateExpenseResume, hu],
    by simp [handleAddExpenseResume], by simp [handleUpdateExpenseResume], ?_, ?_,
    hstart.1, hstart.2.1, hstart.2.2.1, hstart.2.2.2⟩
  · intro message hm
    subst hm
    simp [handleAddExpenseResume, handleAddExpenseSettle, handleUpdateExpenseResume,
      handleUpdateExpenseSettle]
  · intro data errorMsg hd hr
    subst hd
    cases hs : data.getProp "success" with
    | error message =>
      obtain ⟨m, hm⟩ := JSValue.getProp_of_error "errors" hs
      simp [reportedErrors, hm] at hr
    | ok success =>
      have ht : success.truthy = false := by simpa [Response.failed, hs] using hfail
      simp [handleAddExpenseResume, handleAddExpenseSettle, handleUpdateExpenseResume,
        handleUpdateExpenseSettle, hs, ht, hr]

/-- C9 at a rejection by the store and at a thrown request, with the scenario draft in the
form. -/
theorem mutation_failure_frame_witness :
    Untouched (handleAddExpenseStart (World.initial "2024-01-15"))
      (handleAddExpenseResume "2024-01-15" [] (.ok rejectionEnvelope)
        (handleAddExpenseStart (World.initial "2024-01-15"))) ∧
    (handleAddExpenseResume "2024-01-15" [] (.ok rejectionEnvelope)
        (handleAddExpenseStart (World.initial "2024-01-15"))).app.error =
      .str "Amount must be positive" ∧
    (handleUpdateExpenseResume "2024-01-15" [] (.error "Failed to fetch")
        (World.initial "2024-01-15")).app.error = .str "Failed to update expense" :=
  ⟨(mutation_failure_frame "2024-01-15" [] (.ok rejectionEnvelope)
      (handleAddExpenseStart (World.initial "2024-01-15")) rfl).1,
   ((mutation_failure_frame "2024-01-15" [] (.ok rejectionEnvelope)
      (handleAddExpenseStart (World.initial "2024-01-15")) rfl).2.2.2.2.2.1
      rejectionEnvelope (.str "Amount must be positive") rfl rfl).1,
   ((mutation_failure_frame "2024-01-15" [] (.error "Failed to fetch")
      (World.initial "2024-01-15") rfl).2.2.2.2.1 "Failed to fetch" rfl).2⟩

/-! ## Mutations in flight (C10) -/

/-- The guard carried by the two submit buttons: while `loading` is on, neither form can
be submitted. -/
theorem submit_blocked_while_loading (today : String) (w : World) (valueAttribute : String)
    (h : w.app.loading = true) :
    step today w (.submitAdd valueAttribute) = none ∧
    step today w (.submitUpdate valueAttribute) = none := by
  simp [step, gesture, h]

/-- The delete button carries no guard: whenever a card is rendered, a confirmed click
issues a DELETE, whatever is in flight. -/
theorem clickDelete_always_offered (today : String) (w : World) (index : Nat)
    (expense id : JSValue) (hrender : w.app.renders = true)
    (hcard : w.app.card index = some expense) (hid : expense.getProp "id" = .ok id) :
    step today w (.clickDelete index true) =
      some (World.issue { w with app := { w.app with loading := true } } (.deleteExpense id)) := by
  simp [step, gesture, hrender, hcard, hid, handleDeleteExpenseStart]

/-- C10, at the failing input.  The page has loaded one expense, with id 1, and no modal
is open.  The user clicks its delete button and confirms, and before any answer arrives
clicks it again and confirms again: two DELETE requests for the same expense are in
flight together. -/
theorem delete_twice_two_mutations_in_flight :
    (run "2024-01-15" (World.initial "2024-01-15")
        (loadPage foodRecords ++ [.clickDelete 0 true, .clickDelete 0 true])).map
        (fun w => (w.pendingMutations,
          w.app.showAddModal || w.app.showEditModal || w.app.showFilterModal ||
            w.app.showReportModal)) =
      some ([.deleteExpense (.num "1"), .deleteExpense (.num "1")], false) := by
  rfl

/-- The guard of the submit buttons is the `loading` flag, which every refresh clears when
it completes.  With the refresh of the mount still pending, the user applies the (empty)
filter, whose answer arrives; opens the add form, types an amount and submits; the answer
to the mount refresh arrives and clears `loading`; the user submits again: two POST
requests carrying the same draft are in flight together. -/
theorem submit_twice_two_mutations_in_flight :
    (run "2024-01-15" (World.initial "2024-01-15")
        [.respond 0 categoriesAnswer, .openFilterModal, .applyFilters,
         .respond 1 (.ok (successEnvelope (.arr []))),
         .openAddModal, .changeForm .amount "12.50", .submitAdd "",
         .respond 0 (.ok (successEnvelope (.arr []))), .submitAdd "12.50"]).map
        World.pendingMutations =
      some [.postExpense ⟨.str "12.50", .str "2024-01-15", .str "", .str "other"⟩,
        .postExpense ⟨.str "12.50", .str "2024-01-15", .str "", .str "other"⟩] := by
  rfl

/-! ## The default table and the colour fallback (C11) -/

/-- A name the table does not hold is borne by none of its categories. -/
theorem name_ne_of_not_mem (categories : List Category) (name : String)
    (h : name ∉ categories.map Category.name) : ∀ c ∈ categories, c.name ≠ name := by
  intro c hc hname
  exact h (hname ▸ List.mem_map_of_mem Category.name hc)

/-- C11.  The hardcoded default table, in both places where it is written (the `else`
branch and the `catch` block of `fetchCategories`), has seven entries whose names are
pairwise distinct and whose ids are pairwise distinct, and it contains `other`.  With
the registry equal to this table, `getCategoryColor` of any name that is not in the table
equals `getCategoryColor('other')`, and both are `#6b7280`. -/
theorem fallbackCategories_consistent (name : String)
    (hname : name ∉ fallbackCategoriesElse.map Category.name) :
    (fallbackCategoriesElse.map Category.name).Nodup ∧
    (fallbackCategoriesElse.map Category.id).Nodup ∧
    fallbackCategoriesElse.length = 7 ∧
    "other" ∈ fallbackCategoriesElse.map Category.name ∧
    getCategoryColor fallbackCategoriesElse name = getCategoryColor fallbackCategoriesElse "other" ∧
    getCategoryColor fallbackCategoriesElse name = "#6b7280" ∧
    getCategoryColor fallbackCategoriesElse "other" = "#6b7280" ∧
    (fallbackCategoriesCatch.map Category.name).Nodup ∧
    (fallbackCategoriesCatch.map Category.id).Nodup ∧
    fallbackCategoriesCatch.length = 7 ∧
    "other" ∈ fallbackCategoriesCatch.map Category.name ∧
    getCategoryColor fallbackCategoriesCatch name = getCategoryColor fallbackCategoriesCatch "other" ∧
    getCategoryColor fallbackCategoriesCatch "other" = "#6b7280" := by
  have hother : getCategoryColor fallbackCategoriesElse "other" = "#6b7280" := by decide
  have hmiss : getCategoryColor fallbackCategoriesElse name = "#6b7280" := by
    simp only [getCategoryColor,
      find?_name_none fallbackCategoriesElse name
        (name_ne_of_not_mem fallbackCategoriesElse name hname)]
  have hcatch : fallbackCategoriesCatch = fallbackCategoriesElse := rfl
  have hnames : (fallbackCategoriesElse.map Category.name).Nodup := by decide
  have hids : (fallbackCategoriesElse.map Category.id).Nodup := by decide
  have hmem : "other" ∈ fallbackCategoriesElse.map Category.name := by decide
  refine ⟨hnames, hids, rfl, hmem, hmiss.trans hother.symm, hmiss, hother, ?_, ?_, ?_, ?_, ?_, ?_⟩
  · rw [hcatch]; exact hnames
  · rw [hcatch]; exact hids
  · rfl
  · rw [hcatch]; exact hmem
  · rw [hcatch]; exact hmiss.trans hother.symm
  · rw [hcatch]; exact hother

/-- C11 at the name `rent`, which the default table does not hold. -/
theorem fallbackCategories_consistent_witness :
    "rent" ∉ fallbackCategoriesElse.map Category.name ∧
    getCategoryColor fallbackCategoriesElse "rent" = getCategoryColor fallbackCategoriesElse "other" ∧
    getCategoryColor fallbackCategoriesElse "rent" = "#6b7280" :=
  ⟨by decide, (fallbackCategories_consistent "rent" (by decide)).2.2.2.2.1,
    (fallbackCategories_consistent "rent" (by decide)).2.2.2.2.2.1⟩

end ExpenseTracker
